import Mathlib

set_option maxRecDepth 16384

/-!
Verification development for `themarketear_news.py`, a news-feed scraper.

The Python source is shallowly embedded below.  HTML scanning in the source is
done with `re`; each concrete regular expression is embedded as a bespoke
scanner over `List Char` implementing the leftmost-match (and, where the
pattern demands it, greedy-backtracking) semantics of that particular pattern.
Python standard-library helpers (`str.strip`, `html.unescape`, `json.loads`,
`urllib.parse.quote`/`unquote`) are modelled by executable Lean functions that
are faithful on the fragments of their input language actually exercised here;
each model documents its scope.
-/

/-- Model of Python `str.isspace` / `str.strip` whitespace: ASCII whitespace,
the C1 separators, NEL, NBSP and the Unicode space separators. -/
def pyIsSpace (c : Char) : Bool :=
  c == ' ' || c == '\t' || c == '\n' || c == '\r' || c == '\x0b' || c == '\x0c' ||
  c == '\x1c' || c == '\x1d' || c == '\x1e' || c == '\x1f' || c == '\x85' || c == '\xa0' ||
  c == '\u1680' || ('\u2000' ≤ c && c ≤ '\u200a') || c == '\u2028' || c == '\u2029' ||
  c == '\u202f' || c == '\u205f' || c == '\u3000'

/-- Model of Python `str.strip()`: drop leading and trailing whitespace. -/
def pyStrip (s : List Char) : List Char :=
  ((s.dropWhile pyIsSpace).reverse.dropWhile pyIsSpace).reverse

/-- Case-insensitive prefix test: `pat` is given lowercased, the scanned text is
lowercased character-wise (models `re.I` on the ASCII patterns of the source). -/
def ciStartsWith : List Char → List Char → Bool
  | [], _ => true
  | _ :: _, [] => false
  | p :: ps, c :: cs => (p == c.toLower) && ciStartsWith ps cs

/-- Exact (case-sensitive) prefix test. -/
def exStartsWith : List Char → List Char → Bool
  | [], _ => true
  | _ :: _, [] => false
  | p :: ps, c :: cs => (p == c) && exStartsWith ps cs

/-- First case-insensitive occurrence of `pat` in `s`: returns the text before
the occurrence and the text after it.  This is the model of a lazy `.*?LIT`
regex tail: the match ends at the first occurrence of the literal. -/
def splitCI (pat : List Char) : List Char → Option (List Char × List Char)
  | [] => if pat.isEmpty then some ([], []) else none
  | c :: cs =>
    if ciStartsWith pat (c :: cs) then some ([], (c :: cs).drop pat.length)
    else
      match splitCI pat cs with
      | some (a, b) => some (c :: a, b)
      | none => none

/-- Whether `pat` occurs case-insensitively in `s`. -/
def containsCI (pat : List Char) (s : List Char) : Bool :=
  (splitCI pat s).isSome

/-- Scanner for `re.sub(r"<[^>]+>", "", value)`: every leftmost occurrence of a
`<`, at least one non-`>` character and a closing `>` is deleted; scanning
resumes after the match.  Fuel is the length of the scanned text. -/
def stripTagsGo : Nat → List Char → List Char
  | 0, _ => []
  | _, [] => []
  | f+1, c :: cs =>
    if c == '<' then
      let inner := cs.takeWhile (fun x => x != '>')
      if inner.isEmpty then c :: stripTagsGo f cs
      else
        match cs.drop inner.length with
        | '>' :: rest2 => stripTagsGo f rest2
        | _ => c :: stripTagsGo f cs
    else c :: stripTagsGo f cs

/-- Embedding of `strip_tags` (source line 72): remove tag-shaped spans, then
`str.strip`. -/
def strip_tags (value : String) : String :=
  (pyStrip (stripTagsGo value.data.length value.data)).asString

/-- Named HTML entities understood by the `html.unescape` model below. -/
def namedEntity (name : List Char) : Option Char :=
  if name == "amp".data then some '&'
  else if name == "lt".data then some '<'
  else if name == "gt".data then some '>'
  else if name == "quot".data then some '"'
  else if name == "apos".data then some '\x27'
  else if name == "nbsp".data then some '\xa0'
  else none

/-- Decimal digit list to `Nat`. -/
def digitsToNat (ds : List Char) : Nat :=
  ds.foldl (fun a c => 10 * a + (c.toNat - 48)) 0

/-- Model of Python `html.unescape`, faithful on inputs whose character
references are semicolon-terminated decimal references `&#NNN;` with
`32 ≤ NNN ≤ 126` or one of the named entities of `namedEntity`; any other
`&` is left literal (Python additionally resolves further references). -/
def pyUnescapeGo : Nat → List Char → List Char
  | 0, _ => []
  | _, [] => []
  | f+1, '&' :: rest =>
    match rest with
    | '#' :: rest2 =>
      let digits := rest2.takeWhile (fun c => c.isDigit)
      (match rest2.drop digits.length with
       | ';' :: rest3 =>
         if digits.isEmpty then '&' :: pyUnescapeGo f rest
         else
           let n := digitsToNat digits
           if 32 ≤ n && n ≤ 126 then Char.ofNat n :: pyUnescapeGo f rest3
           else '&' :: pyUnescapeGo f rest
       | _ => '&' :: pyUnescapeGo f rest)
    | _ =>
      let name := rest.takeWhile (fun c => c.isAlpha)
      (match rest.drop name.length, namedEntity name with
       | ';' :: rest3, some ch => ch :: pyUnescapeGo f rest3
       | _, _ => '&' :: pyUnescapeGo f rest)
  | f+1, c :: cs => c :: pyUnescapeGo f cs

/-- Embedding of `unescape_text` (source line 68): `html.unescape` then
`str.strip`. -/
def unescape_text (value : String) : String :=
  (pyStrip (pyUnescapeGo value.data.length value.data)).asString

/-- Length of the match of `<article[^>]*>.*?</article>` (flags `re.S | re.I`)
anchored at the head of `s`, if any: the literal `<article`, the maximal run of
non-`>` characters, a `>`, then lazily up to the first `</article>`. -/
def matchArticleLen (s : List Char) : Option Nat :=
  if ciStartsWith "<article".data s then
    let t := s.drop 8
    let attrs := t.takeWhile (fun x => x != '>')
    match t.drop attrs.length with
    | '>' :: body =>
      (match splitCI "</article>".data body with
       | some (inner, _) => some (8 + attrs.length + 1 + inner.length + 10)
       | none => none)
    | _ => none
  else none

/-- Scanner for `re.findall(r"<article[^>]*>.*?</article>", ..., re.S | re.I)`:
leftmost non-overlapping matches, resuming after each match. -/
def findArticlesGo : Nat → List Char → List (List Char)
  | 0, _ => []
  | _, [] => []
  | f+1, c :: cs =>
    match matchArticleLen (c :: cs) with
    | some len => (c :: cs).take len :: findArticlesGo f ((c :: cs).drop len)
    | none => findArticlesGo f cs

/-- All article blocks of a document, in document order. -/
def findArticles (s : List Char) : List (List Char) :=
  findArticlesGo s.length s

/-- Group 1 of `<script[^>]*type="application/ld\+json"[^>]*>(.*?)</script>`
(flags `re.S | re.I`) anchored at the head of `s`: both `[^>]*` spans live
inside the first non-`>` run after `<script`, so the pattern matches here
exactly when that run contains the type literal and is closed by `>`, and the
group runs lazily to the first `</script>`. -/
def matchLdJsonAt (s : List Char) : Option (List Char) :=
  if ciStartsWith "<script".data s then
    let t := s.drop 7
    let attrs := t.takeWhile (fun x => x != '>')
    if containsCI "type=\"application/ld+json\"".data attrs then
      match t.drop attrs.length with
      | '>' :: body =>
        (match splitCI "</script>".data body with
         | some (inner, _) => some inner
         | none => none)
      | _ => none
    else none
  else none

/-- Scanner for `re.search` of the structured-data script pattern: group 1 of
the leftmost match. -/
def searchLdJsonGo : Nat → List Char → Option (List Char)
  | 0, _ => none
  | _, [] => none
  | f+1, c :: cs =>
    match matchLdJsonAt (c :: cs) with
    | some g => some g
    | none => searchLdJsonGo f cs

/-- Leftmost structured-data script body in an article block. -/
def searchLdJson (s : List Char) : Option (List Char) :=
  searchLdJsonGo s.length s

/-- Group 1 of `<TAG[^>]*>(.*?)</TAG>` (flags `re.S | re.I`) anchored at the
head of `s`, for a lowercased tag name `tag`. -/
def matchTagAt (tag : List Char) (s : List Char) : Option (List Char) :=
  if ciStartsWith ('<' :: tag) s then
    let t := s.drop (1 + tag.length)
    let attrs := t.takeWhile (fun x => x != '>')
    match t.drop attrs.length with
    | '>' :: body =>
      (match splitCI ('<' :: '/' :: (tag ++ ['>'])) body with
       | some (inner, _) => some inner
       | none => none)
    | _ => none
  else none

/-- Scanner for `re.search` of an element pattern: group 1 of the leftmost
match. -/
def searchTagGo (tag : List Char) : Nat → List Char → Option (List Char)
  | 0, _ => none
  | _, [] => none
  | f+1, c :: cs =>
    match matchTagAt tag (c :: cs) with
    | some g => some g
    | none => searchTagGo tag f cs

/-- Leftmost `<TAG ...>body</TAG>` body in an article block. -/
def searchTag (tag : List Char) (s : List Char) : Option (List Char) :=
  searchTagGo tag s.length s

/-- JSON values as produced by the `json.loads` model: numbers are restricted
to integers (the structured-data payloads handled here use none of the float
forms). -/
inductive JVal where
  | null : JVal
  | bool : Bool → JVal
  | num : Int → JVal
  | str : String → JVal
  | arr : List JVal → JVal
  | obj : List (String × JVal) → JVal

/-- JSON inter-token whitespace. -/
def jsonWs (c : Char) : Bool :=
  c == ' ' || c == '\t' || c == '\n' || c == '\r'

/-- Drop JSON whitespace. -/
def jSkipWs (s : List Char) : List Char := s.dropWhile jsonWs

/-- Integer literal at the head of the input: optional sign, digits without a
leading zero, not followed by a fraction or exponent (floats are outside the
model's scope and make the parse fail where Python would build a float). -/
def parseJNum (s : List Char) : Option (JVal × List Char) :=
  let neg := s.head? == some '-'
  let t := if neg then s.drop 1 else s
  let digits := t.takeWhile (fun c => c.isDigit)
  if digits.isEmpty then none
  else if 1 < digits.length && digits.head? == some '0' then none
  else
    let rest := t.drop digits.length
    match rest.head? with
    | some c =>
      if c == '.' || c == 'e' || c == 'E' then none
      else
        let n : Int := Int.ofNat (digitsToNat digits)
        some (JVal.num (if neg then -n else n), rest)
    | none =>
      let n : Int := Int.ofNat (digitsToNat digits)
      some (JVal.num (if neg then -n else n), rest)

mutual

/-- Body of a JSON string after the opening quote; handles the single-character
escapes (`\uXXXX` is outside the model's scope and fails). -/
def parseJString : Nat → List Char → Option (List Char × List Char)
  | 0, _ => none
  | f+1, s =>
    match s with
    | [] => none
    | '"' :: r => some ([], r)
    | '\\' :: e :: r =>
      let esc : Option Char :=
        if e == '"' then some '"' else if e == '\\' then some '\\'
        else if e == '/' then some '/' else if e == 'b' then some '\x08'
        else if e == 'f' then some '\x0c' else if e == 'n' then some '\n'
        else if e == 'r' then some '\r' else if e == 't' then some '\t'
        else none
      (match esc with
       | some ch =>
         (match parseJString f r with
          | some (a, b) => some (ch :: a, b)
          | none => none)
       | none => none)
    | c :: r =>
      if c.toNat < 32 then none
      else
        match parseJString f r with
        | some (a, b) => some (c :: a, b)
        | none => none

/-- One JSON value at the head of the input (leading whitespace allowed),
returning the remaining input. -/
def parseJVal : Nat → List Char → Option (JVal × List Char)
  | 0, _ => none
  | f+1, s0 =>
    let s := jSkipWs s0
    if exStartsWith "true".data s then some (JVal.bool true, s.drop 4)
    else if exStartsWith "false".data s then some (JVal.bool false, s.drop 5)
    else if exStartsWith "null".data s then some (JVal.null, s.drop 4)
    else
      match s with
      | '"' :: rest =>
        (match parseJString f rest with
         | some (cs, r) => some (JVal.str cs.asString, r)
         | none => none)
      | '\x7b' :: rest =>
        (match jSkipWs rest with
         | '\x7d' :: r2 => some (JVal.obj [], r2)
         | _ => parseJObjMembers f rest [])
      | '[' :: rest =>
        (match jSkipWs rest with
         | ']' :: r2 => some (JVal.arr [], r2)
         | _ => parseJArrItems f rest [])
      | _ => parseJNum s

/-- Members of a non-empty JSON object, accumulating in reverse. -/
def parseJObjMembers : Nat → List Char → List (String × JVal) → Option (JVal × List Char)
  | 0, _, _ => none
  | f+1, s, acc =>
    match jSkipWs s with
    | '"' :: r =>
      (match parseJString f r with
       | some (k, r2) =>
         (match jSkipWs r2 with
          | ':' :: r4 =>
            (match parseJVal f r4 with
             | some (v, r5) =>
               (match jSkipWs r5 with
                | ',' :: r7 => parseJObjMembers f r7 ((k.asString, v) :: acc)
                | '\x7d' :: r7 => some (JVal.obj (((k.asString, v) :: acc).reverse), r7)
                | _ => none)
             | none => none)
          | _ => none)
       | none => none)
    | _ => none

/-- Items of a non-empty JSON array, accumulating in reverse. -/
def parseJArrItems : Nat → List Char → List JVal → Option (JVal × List Char)
  | 0, _, _ => none
  | f+1, s, acc =>
    match parseJVal f s with
    | some (v, r) =>
      (match jSkipWs r with
       | ',' :: r2 => parseJArrItems f r2 (v :: acc)
       | ']' :: r2 => some (JVal.arr ((v :: acc).reverse), r2)
       | _ => none)
    | none => none

end

/-- Model of `json.loads`: parse one JSON document, allowing surrounding
whitespace, requiring the whole input to be consumed.  `none` corresponds to
`json.JSONDecodeError`.  Faithful on documents built from objects, arrays,
strings without `\uXXXX` escapes, integers, booleans and null. -/
def json_loads (s : List Char) : Option JVal :=
  match parseJVal (s.length + 8) s with
  | some (v, rest) => if (jSkipWs rest).isEmpty then some v else none
  | none => none

/-- Model of `dict.get` on a parsed JSON object: later duplicate keys win, as
in `json.loads`. -/
def dictGet (kvs : List (String × JVal)) (k : String) : Option JVal :=
  ((kvs.filter (fun p => p.1 == k)).getLast?).map (fun p => p.2)

/-- Python truthiness of a JSON value. -/
def truthyJ : JVal → Bool
  | JVal.null => false
  | JVal.bool b => b
  | JVal.num n => n != 0
  | JVal.str s => s != ""
  | JVal.arr xs => !xs.isEmpty
  | JVal.obj kvs => !kvs.isEmpty

/-- Python `isinstance(v, str)` on a JSON value. -/
def isStrJ : JVal → Bool
  | JVal.str _ => true
  | _ => false

/-- Python `a or b` where `a` is `dict.get`'s result (`None` when absent). -/
def pyOr (a : Option JVal) (b : JVal) : JVal :=
  match a with
  | some v => if truthyJ v then v else b
  | none => b

mutual

/-- Python `repr` of a JSON value (element position inside containers);
string repr is modelled without escaping, which is faithful for strings
free of quotes and control characters. -/
def pyRepr : JVal → String
  | JVal.null => "None"
  | JVal.bool true => "True"
  | JVal.bool false => "False"
  | JVal.num n => toString n
  | JVal.str s => "\x27" ++ s ++ "\x27"
  | JVal.arr xs => "[" ++ pyReprList xs ++ "]"
  | JVal.obj kvs => "\x7b" ++ pyReprObj kvs ++ "\x7d"

/-- Comma-separated reprs of list items. -/
def pyReprList : List JVal → String
  | [] => ""
  | [x] => pyRepr x
  | x :: y :: rest => pyRepr x ++ ", " ++ pyReprList (y :: rest)

/-- Comma-separated reprs of object members. -/
def pyReprObj : List (String × JVal) → String
  | [] => ""
  | [(k, v)] => "\x27" ++ k ++ "\x27: " ++ pyRepr v
  | (k, v) :: p :: rest => "\x27" ++ k ++ "\x27: " ++ pyRepr v ++ ", " ++ pyReprObj (p :: rest)

end

/-- Python `str()` of a JSON value. -/
def pyStr : JVal → String
  | JVal.null => "None"
  | JVal.bool true => "True"
  | JVal.bool false => "False"
  | JVal.num n => toString n
  | JVal.str s => s
  | JVal.arr xs => "[" ++ pyReprList xs ++ "]"
  | JVal.obj kvs => "\x7b" ++ pyReprObj kvs ++ "\x7d"

/-- A news record: the `{"title": ..., "description": ...}` dicts of the
source. -/
structure NewsRecord where
  title : String
  description : String
deriving DecidableEq

/-- The title-like field of a structured-data payload:
`payload.get("headline") or payload.get("name") or ""` (source line 91). -/
def sdTitleVal (kvs : List (String × JVal)) : JVal :=
  pyOr (dictGet kvs "headline") (pyOr (dictGet kvs "name") (JVal.str ""))

/-- The description-like field of a structured-data payload:
`payload.get("description") or ""` (source line 92). -/
def sdDescVal (kvs : List (String × JVal)) : JVal :=
  pyOr (dictGet kvs "description") (JVal.str "")

/-- Normalized text of a structured-data field:
`unescape_text(str(v)) if v else ""` (source lines 94-95). -/
def sdText (v : JVal) : String :=
  if truthyJ v then unescape_text (pyStr v) else ""

/-- The structured-data strategy for one article block (source lines 79-101):
locate the ld+json script, parse its stripped body, and when the payload is a
mapping passing the `isinstance` check whose normalized fields are not both
empty, produce the record.  Every failure path yields `none`, which in the
source falls through to the markup strategy. -/
def structured_attempt (article : List Char) : Option NewsRecord :=
  match searchLdJson article with
  | none => none
  | some g =>
    match json_loads (pyStrip g) with
    | some (JVal.obj kvs) =>
      if isStrJ (sdTitleVal kvs) || isStrJ (sdDescVal kvs) then
        if sdText (sdTitleVal kvs) ≠ "" ∨ sdText (sdDescVal kvs) ≠ "" then
          some ⟨sdText (sdTitleVal kvs), sdText (sdDescVal kvs)⟩
        else none
      else none
    | _ => none

/-- The heading match of the markup strategy (source lines 103-107): first
`h1`, else `h2`, else `h3`. -/
def markup_title_match (article : List Char) : Option (List Char) :=
  match searchTag "h1".data article with
  | some g => some g
  | none =>
    match searchTag "h2".data article with
    | some g => some g
    | none => searchTag "h3".data article

/-- The `title` local of the markup strategy (source line 109). -/
def markup_title (article : List Char) : String :=
  match markup_title_match article with
  | some g => strip_tags g.asString
  | none => ""

/-- The `description` local of the markup strategy (source lines 108, 110). -/
def markup_description (article : List Char) : String :=
  match searchTag "p".data article with
  | some g => strip_tags g.asString
  | none => ""

/-- The markup strategy for one article block (source lines 103-115): strip
tags from the heading and paragraph bodies; keep the record unless both are
empty, unescaping entities on append. -/
def markup_attempt (article : List Char) : Option NewsRecord :=
  if markup_title article ≠ "" ∨ markup_description article ≠ "" then
    some ⟨unescape_text (markup_title article), unescape_text (markup_description article)⟩
  else none

/-- The record contributed by one article block: the structured-data strategy
first, the markup strategy when it yields nothing (the loop body of source
lines 78-115 appends at most one record per block). -/
def extract_article_record (article : List Char) : Option NewsRecord :=
  match structured_attempt article with
  | some r => some r
  | none => markup_attempt article

/-- Embedding of `extract_records_from_html` (source line 76): per-block
records of all article blocks, in document order. -/
def extract_records_from_html (html_text : String) : List NewsRecord :=
  (findArticles html_text.data).filterMap extract_article_record

/-- Embedding of `find_article_records` (source line 132), an alias. -/
def find_article_records (html_text : String) : List NewsRecord :=
  extract_records_from_html html_text

/-- Scanner for the attribute part of `<article[^>]*\sid="([^"]+)"` (flag
`re.I`), applied to the text following the literal `<article`.  The greedy
`[^>]*` makes the regex pick the last whitespace position inside the non-`>`
run at which `id="..."` matches; the recursion below prefers later positions
and stops at the first `>`.  Returns the captured group and the text after the
closing quote. -/
def artIdScan : List Char → Option (List Char × List Char)
  | [] => none
  | c :: cs =>
    if c == '>' then none
    else
      match artIdScan cs with
      | some r => some r
      | none =>
        if pyIsSpace c && ciStartsWith "id=\"".data cs then
          let q := (cs.drop 4).takeWhile (fun x => x != '"')
          if !q.isEmpty && (cs.drop (4 + q.length)).head? == some '"' then
            some (q, cs.drop (4 + q.length + 1))
          else none
        else none

/-- Scanner for `re.findall(r"<article[^>]*\sid=\"([^\"]+)\"", ..., re.I)`:
all captured ids, leftmost non-overlapping, resuming after each match. -/
def findArticleIdsGo : Nat → List Char → List (List Char)
  | 0, _ => []
  | _, [] => []
  | f+1, c :: cs =>
    if ciStartsWith "<article".data (c :: cs) then
      match artIdScan ((c :: cs).drop 8) with
      | some (q, rest) => q :: findArticleIdsGo f rest
      | none => findArticleIdsGo f cs
    else findArticleIdsGo f cs

/-- All article-container ids of a document. -/
def findArticleIds (s : List Char) : List (List Char) :=
  findArticleIdsGo s.length s

/-- Scanner for `re.search(r"data-post-id=\"([^\"]+)\"", html_text)`
(case-sensitive): group 1 of the leftmost match. -/
def searchDataPostIdGo : Nat → List Char → Option (List Char)
  | 0, _ => none
  | _, [] => none
  | f+1, c :: cs =>
    if exStartsWith "data-post-id=\"".data (c :: cs) then
      let q := ((c :: cs).drop 14).takeWhile (fun x => x != '"')
      if !q.isEmpty && ((c :: cs).drop (14 + q.length)).head? == some '"' then some q
      else searchDataPostIdGo f cs
    else searchDataPostIdGo f cs

/-- Scanner for `re.search` of `"postId"\s*:\s*"([^"]+)"` (case-sensitive):
group 1 of the leftmost match. -/
def searchPostIdJsonGo : Nat → List Char → Option (List Char)
  | 0, _ => none
  | _, [] => none
  | f+1, c :: cs =>
    if exStartsWith "\"postId\"".data (c :: cs) then
      match ((c :: cs).drop 8).dropWhile pyIsSpace with
      | ':' :: t2 =>
        (match t2.dropWhile pyIsSpace with
         | '"' :: t4 =>
           let q := t4.takeWhile (fun x => x != '"')
           if !q.isEmpty && (t4.drop q.length).head? == some '"' then some q
           else searchPostIdJsonGo f cs
         | _ => searchPostIdJsonGo f cs)
      | _ => searchPostIdJsonGo f cs
    else searchPostIdJsonGo f cs

/-- Embedding of `extract_post_id_from_html` (source line 119): id of the last
article container, else the first `data-post-id` attribute, else the first
quoted `postId` JSON value, else `None`. -/
def extract_post_id_from_html (html_text : String) : Option String :=
  match (findArticleIds html_text.data).getLast? with
  | some q => some q.asString
  | none =>
    match searchDataPostIdGo html_text.data.length html_text.data with
    | some q => some q.asString
    | none =>
      match searchPostIdJsonGo html_text.data.length html_text.data with
      | some q => some q.asString
      | none => none

/-- The dedup key of a record: its `(title, description)` pair. -/
def recKey (r : NewsRecord) : String × String := (r.title, r.description)

/-- The loop of `dedupe_records` (source lines 136-145), with the `seen` set
as a list of keys. -/
def dedupeGo (seen : List (String × String)) : List NewsRecord → List NewsRecord
  | [] => []
  | r :: rs =>
    if recKey r ∈ seen then dedupeGo seen rs
    else r :: dedupeGo (recKey r :: seen) rs

/-- Embedding of `dedupe_records`: keep the first record of each
`(title, description)` pair, preserving order. -/
def dedupe_records (records : List NewsRecord) : List NewsRecord :=
  dedupeGo [] records

/-- Python `str.strip` on a `String`. -/
def pyStripS (s : String) : String := (pyStrip s.data).asString

/-- UTF-8 bytes of one character. -/
def charUtf8 (c : Char) : List Nat :=
  let n := c.toNat
  if n < 0x80 then [n]
  else if n < 0x800 then [0xC0 ||| (n >>> 6), 0x80 ||| (n &&& 0x3F)]
  else if n < 0x10000 then
    [0xE0 ||| (n >>> 12), 0x80 ||| ((n >>> 6) &&& 0x3F), 0x80 ||| (n &&& 0x3F)]
  else
    [0xF0 ||| (n >>> 18), 0x80 ||| ((n >>> 12) &&& 0x3F),
     0x80 ||| ((n >>> 6) &&& 0x3F), 0x80 ||| (n &&& 0x3F)]

/-- Uppercase hexadecimal digit, as used by `urllib.parse.quote`. -/
def hexDigitU (n : Nat) : Char :=
  if n < 10 then Char.ofNat (48 + n) else Char.ofNat (55 + n)

/-- Bytes kept verbatim by `urllib.parse.quote(..., safe="")`: the unreserved
set ALPHA / DIGIT / `_` / `.` / `-` / `~`. -/
def isUnreservedByte (n : Nat) : Bool :=
  (65 ≤ n && n ≤ 90) || (97 ≤ n && n ≤ 122) || (48 ≤ n && n ≤ 57) ||
  n == 95 || n == 46 || n == 45 || n == 126

/-- Model of `urllib.parse.quote(s, safe="")`: percent-encode every UTF-8 byte
outside the unreserved set, uppercase hex. -/
def pyQuote (s : String) : String :=
  (((s.data.map charUtf8).flatten).map (fun b =>
    if isUnreservedByte b then [Char.ofNat b]
    else ['%', hexDigitU (b / 16), hexDigitU (b % 16)])).flatten.asString

/-- Hex digit value. -/
def hexVal (c : Char) : Option Nat :=
  if '0' ≤ c && c ≤ '9' then some (c.toNat - 48)
  else if 'a' ≤ c && c ≤ 'f' then some (c.toNat - 87)
  else if 'A' ≤ c && c ≤ 'F' then some (c.toNat - 55)
  else none

/-- Percent-decoding to bytes: `%XX` pairs become bytes, other characters
contribute their UTF-8 bytes. -/
def unquoteBytes : Nat → List Char → List Nat
  | 0, _ => []
  | _, [] => []
  | f+1, '%' :: rest =>
    (match rest with
     | a :: b :: rest2 =>
       (match hexVal a, hexVal b with
        | some x, some y => (16 * x + y) :: unquoteBytes f rest2
        | _, _ => charUtf8 '%' ++ unquoteBytes f rest)
     | _ => charUtf8 '%' ++ unquoteBytes f rest)
  | f+1, c :: rest => charUtf8 c ++ unquoteBytes f rest

/-- UTF-8 decoding with replacement character on malformed input; faithful on
ASCII and well-formed two-byte sequences, replacement otherwise (longer
sequences do not occur in the percent-decoded payloads considered here). -/
def utf8Decode : Nat → List Nat → List Char
  | 0, _ => []
  | _, [] => []
  | f+1, b :: rest =>
    if b < 0x80 then Char.ofNat b :: utf8Decode f rest
    else if 0xC2 ≤ b && b ≤ 0xDF then
      match rest with
      | b2 :: r2 =>
        if 0x80 ≤ b2 && b2 ≤ 0xBF then
          Char.ofNat (((b - 0xC0) <<< 6) + (b2 - 0x80)) :: utf8Decode f r2
        else '�' :: utf8Decode f rest
      | [] => '�' :: utf8Decode f rest
    else '�' :: utf8Decode f rest

/-- Model of `urllib.parse.unquote`: percent-decode, then UTF-8 decode. -/
def pyUnquote (s : String) : String :=
  (utf8Decode (s.data.length + 4) (unquoteBytes s.data.length s.data)).asString

/-- The serialized tag filter: value of
`json.dumps({"tags": ["newsfeed"]}, separators=(",", ":"))` (source line 29). -/
def json_tags_payload : String := "\x7b\"tags\":[\"newsfeed\"]\x7d"

/-- Embedding of `build_cookie` (source line 28): `U=<token>; P=<quoted tags>`. -/
def build_cookie (token : String) : String :=
  "U=" ++ token ++ "; P=" ++ pyQuote json_tags_payload

/-- Observable events of one run: the two fetch shapes (with the cookie and,
for fragment fetches, the `postId` sent), stdout lines and stderr lines. -/
inductive Ev where
  | fetchNews : String → Ev
  | fetchRender : String → Option String → Ev
  | out : String → Ev
  | err : String → Ev
deriving DecidableEq

/-- Embedding of `print_records` (source line 148) as the list of stdout
lines: skip records whose stripped fields are both empty, print the title, the
description when non-empty, and a blank separator. -/
def print_records (records : List NewsRecord) : List Ev :=
  (records.map (fun r =>
    let title := pyStripS r.title
    let description := pyStripS r.description
    if title = "" ∧ description = "" then []
    else Ev.out title :: ((if description ≠ "" then [Ev.out description] else []) ++ [Ev.out ""]))).flatten

/-- Python truthiness of an optional string (`None` and `""` are falsy). -/
def strTruthy : Option String → Bool
  | some s => s != ""
  | none => false

/-- The pagination loop of `run` (source lines 196-211).  The transport is a
function from fragment-fetch call index to response (`Except` error =
`urllib.error.URLError`); `callIdx` counts fragment fetches already made,
`page` is the 1-based page number, and the fuel equals `pages - page + 1`, so
fuel `0` is exactly the exit condition `page > pages`. -/
def pagLoop (ck : String) (render : Nat → Except String String) :
    Nat → Nat → Int → Option String → List Ev × Nat
  | 0, _, _, _ => ([], 0)
  | f+1, callIdx, page, lastPostId =>
    if strTruthy lastPostId then
      match render callIdx with
      | Except.error e =>
        ([Ev.fetchRender ck lastPostId,
          Ev.err ("Failed to load page " ++ toString page ++ ": " ++ e)], 1)
      | Except.ok html_text =>
        let page_records := dedupe_records (find_article_records html_text)
        if page_records.isEmpty then ([Ev.fetchRender ck lastPostId], 0)
        else
          let rec_pair := pagLoop ck render f (callIdx + 1) (page + 1)
            (extract_post_id_from_html html_text)
          (Ev.fetchRender ck lastPostId :: (print_records page_records ++ rec_pair.1),
           rec_pair.2)
    else ([], 0)

/-- The tail of `run` after the initial (or fallback) page has produced
`records` from document `html_text` (source lines 185-212): emit, stop if one
page was requested, warn and stop on a missing cursor, else paginate. -/
def runTail (ck : String) (render : Nat → Except String String) (callIdx : Nat)
    (html_text : String) (records : List NewsRecord) (evs0 : List Ev) (pages : Int) :
    List Ev × Nat :=
  let emitted := if records.isEmpty then [] else print_records records
  if pages ≤ 1 then (evs0 ++ emitted, 0)
  else
    let last_post_id := extract_post_id_from_html html_text
    if strTruthy last_post_id then
      let lp := pagLoop ck render (pages - 1).toNat callIdx 2 last_post_id
      (evs0 ++ emitted ++ lp.1, lp.2)
    else
      (evs0 ++ emitted ++ [Ev.err "Warning: could not find a post id for pagination."], 0)

/-- Embedding of `run` (source line 160).  The environment variable is an
optional string; the primary fetch is one response, fragment fetches are a
response per call index.  Returns the event trace and the exit status. -/
def run (news : Except String String) (render : Nat → Except String String)
    (token : Option String) (pages : Int) : List Ev × Nat :=
  match token with
  | none => ([Ev.err "TME_TOKEN is not set."], 2)
  | some t =>
    if t = "" then ([Ev.err "TME_TOKEN is not set."], 2)
    else
      let ck := build_cookie t
      match news with
      | Except.error e =>
        ([Ev.fetchNews ck, Ev.err ("Failed to load newsfeed: " ++ e)], 1)
      | Except.ok h0 =>
        let records0 := dedupe_records (find_article_records h0)
        if records0.isEmpty then
          let fallback_post_id := extract_post_id_from_html h0
          match render 0 with
          | Except.error e =>
            ([Ev.fetchNews ck, Ev.fetchRender ck fallback_post_id,
              Ev.err ("Failed to load fallback page: " ++ e)], 1)
          | Except.ok h1 =>
            runTail ck render 1 h1 (dedupe_records (find_article_records h1))
              [Ev.fetchNews ck, Ev.fetchRender ck fallback_post_id] pages
        else
          runTail ck render 0 h0 records0 [Ev.fetchNews ck] pages

/-- Two articles with identical title and description. -/
def dupHtml : String :=
  "<article><h1>T</h1><p>D</p></article><article><h1>T</h1><p>D</p></article>"

/-- One article whose heading is a character reference unescaping to a space. -/
def emptyRecHtml : String := "<article><h1>&#32;</h1></article>"

/-- The markup scenario of the spec. -/
def scenarioHtml : String :=
  "<article><h1>Fed holds rates</h1><p>No change expected.</p></article>"

/-- An article with an `h2` before an `h1`. -/
def priorityHtml : String :=
  "<article><h2>Second</h2><h1>First</h1><p>Para</p></article>"

/-- An article exercising `h3`, tag stripping, entity unescaping and trimming. -/
def entitiesHtml : String :=
  "<article><h3>Third</h3><p> A &amp; B <b>x</b></p></article>"

/-- An article carrying both a structured-data script and distinct markup. -/
def sdArticle : List Char :=
  ("<article><script type=\"application/ld+json\">" ++
   "\x7b\"headline\":\"SD Title\",\"description\":\"SD Desc\"\x7d" ++
   "</script><h1>MK Title</h1><p>MK Desc</p></article>").data

/-- A document with two article ids, a `data-post-id` attribute and a
`postId` JSON field. -/
def cursorHtml : String :=
  "<article id=\"a1\"></article><article id=\"a2\"></article>" ++
  "<div data-post-id=\"dpi\"></div>\"postId\":\"pj\""

/-- A fragment page that paginates cleanly: records and a cursor. -/
def goodFragment : String := "<article id=\"g1\"><h1>G1</h1></article>"

/-- An initial page with records and a cursor. -/
def initialPage : String := "<article id=\"a0\"><h1>A0</h1></article>"

/-- Fragment transport for the pagination witness: one good page, then empty
pages. -/
def renderW : Nat → Except String String
  | 0 => Except.ok goodFragment
  | _ => Except.ok ""

/-- A page with records but no extractable cursor. -/
def noCursorPage : String := "<article><h1>A0</h1></article>"

/-- A fragment page that lets pagination continue: its records survive dedup
and it carries a truthy cursor. -/
def goodPage (g : String) : Prop :=
  dedupe_records (find_article_records g) ≠ [] ∧
  strTruthy (extract_post_id_from_html g) = true

/-- The event trace the pagination loop produces when served the pages
`goods` (each a `goodPage`) followed by a record-less page: one fragment fetch
and one emission per good page, then the final fetch that stops the loop. -/
def expectedLoop (ck : String) (pid : Option String) : List String → List Ev
  | [] => [Ev.fetchRender ck pid]
  | g :: gs =>
    Ev.fetchRender ck pid ::
      (print_records (dedupe_records (find_article_records g)) ++
       expectedLoop ck (extract_post_id_from_html g) gs)

/-- The event trace the pagination loop produces when served the pages
`goods` (each a `goodPage`) and then a transport error `e`: one fragment
fetch and one emission per good page, then the failing fetch and its error
message (carrying the 1-based number of the failing page). -/
def expectedLoopFail (ck e : String) : List String → Option String → Int → List Ev
  | [], pid, page =>
    [Ev.fetchRender ck pid,
     Ev.err ("Failed to load page " ++ toString page ++ ": " ++ e)]
  | g :: gs, pid, page =>
    Ev.fetchRender ck pid ::
      (print_records (dedupe_records (find_article_records g)) ++
       expectedLoopFail ck e gs (extract_post_id_from_html g) (page + 1))

/-- Fragment transport that fails every call. -/
def renderFailW : Nat → Except String String := fun _ => Except.error "net"

/-! ## Properties of deduplication -/

/-- A record emitted by the dedup loop never carries a key already seen. -/
lemma dedupeGo_key_not_mem :
    ∀ (l : List NewsRecord) (seen : List (String × String)) (r : NewsRecord),
      r ∈ dedupeGo seen l → recKey r ∉ seen := by
  intro l
  induction l with
  | nil => intro seen r h; simp [dedupeGo] at h
  | cons a l ih =>
    intro seen r h
    by_cases hk : recKey a ∈ seen
    · rw [dedupeGo, if_pos hk] at h
      exact ih seen r h
    · rw [dedupeGo, if_neg hk] at h
      rcases List.mem_cons.mp h with h1 | h2
      · subst h1; exact hk
      · intro hmem
        exact (ih _ r h2) (List.mem_cons_of_mem _ hmem)

/-- The dedup loop's output is a sublist of its input (order preserved). -/
lemma dedupeGo_sublist :
    ∀ (l : List NewsRecord) (seen : List (String × String)), List.Sublist (dedupeGo seen l) l := by
  intro l
  induction l with
  | nil => intro seen; simp [dedupeGo]
  | cons a l ih =>
    intro seen
    by_cases hk : recKey a ∈ seen
    · rw [dedupeGo, if_pos hk]
      exact (ih seen).cons a
    · rw [dedupeGo, if_neg hk]
      exact (ih _).cons₂ a

/-- No two records of the dedup loop's output share a key. -/
lemma dedupeGo_pairwise :
    ∀ (l : List NewsRecord) (seen : List (String × String)),
      (dedupeGo seen l).Pairwise (fun a b => recKey a ≠ recKey b) := by
  intro l
  induction l with
  | nil => intro seen; simp [dedupeGo]
  | cons a l ih =>
    intro seen
    by_cases hk : recKey a ∈ seen
    · rw [dedupeGo, if_pos hk]
      exact ih seen
    · rw [dedupeGo, if_neg hk]
      refine List.Pairwise.cons ?_ (ih _)
      intro b hb hEq
      have := dedupeGo_key_not_mem l _ b hb
      exact this (by rw [← hEq]; exact List.mem_cons_self _ _)

/-- Every record of the dedup loop's output is the first input record with its
key (first occurrence wins). -/
lemma dedupeGo_first :
    ∀ (l : List NewsRecord) (seen : List (String × String)) (r : NewsRecord),
      r ∈ dedupeGo seen l →
      ∃ pre post, l = pre ++ r :: post ∧ ∀ x ∈ pre, recKey x ≠ recKey r := by
  intro l
  induction l with
  | nil => intro seen r h; simp [dedupeGo] at h
  | cons a l ih =>
    intro seen r h
    by_cases hk : recKey a ∈ seen
    · rw [dedupeGo, if_pos hk] at h
      obtain ⟨pre, post, heq, hpre⟩ := ih seen r h
      have hrk : recKey r ∉ seen := dedupeGo_key_not_mem l seen r h
      refine ⟨a :: pre, post, by rw [heq]; rfl, ?_⟩
      intro x hx
      rcases List.mem_cons.mp hx with h1 | h2
      · subst h1
        intro hEq
        rw [hEq] at hk
        exact hrk hk
      · exact hpre x h2
    · rw [dedupeGo, if_neg hk] at h
      rcases List.mem_cons.mp h with h1 | h2
      · subst h1
        exact ⟨[], l, rfl, by simp⟩
      · obtain ⟨pre, post, heq, hpre⟩ := ih _ r h2
        have hrk : recKey r ∉ recKey a :: seen := dedupeGo_key_not_mem l _ r h2
        refine ⟨a :: pre, post, by rw [heq]; rfl, ?_⟩
        intro x hx
        rcases List.mem_cons.mp hx with h1 | h3
        · subst h1
          intro hEq
          exact hrk (by rw [← hEq]; exact List.mem_cons_self _ _)
        · exact hpre x h3

/-- C1: for every HTML input, the record-extraction operation
(`extract_records_from_html` followed by `dedupe_records`) returns a sequence
in which no two records share a `(title, description)` pair; the first
occurrence of each pair is kept, at its original position, and the relative
order of the kept records is preserved (the output is a sublist of the raw
extraction); an input with two articles yielding the same title and
description produces exactly one record. -/
theorem dedup_invariant_and_scenario :
    (∀ html : String,
      (dedupe_records (extract_records_from_html html)).Pairwise
        (fun a b => recKey a ≠ recKey b) ∧
      List.Sublist (dedupe_records (extract_records_from_html html)) (extract_records_from_html html) ∧
      (∀ r ∈ dedupe_records (extract_records_from_html html),
        ∃ pre post, extract_records_from_html html = pre ++ r :: post ∧
          ∀ x ∈ pre, recKey x ≠ recKey r)) ∧
    dedupe_records (extract_records_from_html dupHtml) = [⟨"T", "D"⟩] := by
  constructor
  · intro html
    exact ⟨dedupeGo_pairwise _ [], dedupeGo_sublist _ [],
      fun r hr => dedupeGo_first _ [] r hr⟩
  · decide

/-- Witness for C1: the deduplicated record of the duplicate-article document
is the first of the two identical raw records. -/
theorem dedup_invariant_and_scenario_witness :
    ∃ pre post, extract_records_from_html dupHtml =
        pre ++ (⟨"T", "D"⟩ : NewsRecord) :: post ∧
      ∀ x ∈ pre, recKey x ≠ recKey ⟨"T", "D"⟩ :=
  (dedup_invariant_and_scenario.1 dupHtml).2.2 ⟨"T", "D"⟩ (by decide)

/-! ## Non-emptiness of extracted records -/

/-- Normalizing the empty string yields the empty string. -/
lemma unescape_text_empty : unescape_text "" = "" := rfl

/-- A structured-data field text is the normalization of some source text that
is non-empty whenever the field text is. -/
lemma sdText_shape (v : JVal) :
    ∃ t, sdText v = unescape_text t ∧ (sdText v ≠ "" → t ≠ "") := by
  by_cases h : truthyJ v = true
  · refine ⟨pyStr v, by simp [sdText, h], ?_⟩
    intro hne ht
    apply hne
    calc sdText v = unescape_text (pyStr v) := by simp [sdText, h]
      _ = unescape_text "" := by rw [ht]
      _ = "" := unescape_text_empty
  · have hv : sdText v = "" := by simp [sdText, h]
    exact ⟨"", by rw [hv, unescape_text_empty], fun hne => absurd hv hne⟩

/-- A record accepted by the structured-data strategy has a non-empty field
after normalization, and both fields are normalizations of source texts not
both empty. -/
lemma structured_attempt_shape (a : List Char) (r : NewsRecord)
    (h : structured_attempt a = some r) :
    (r.title ≠ "" ∨ r.description ≠ "") ∧
    ∃ t d, r.title = unescape_text t ∧ r.description = unescape_text d ∧
      (t ≠ "" ∨ d ≠ "") := by
  unfold structured_attempt at h
  cases hg : searchLdJson a with
  | none => rw [hg] at h; exact absurd h (by simp)
  | some g =>
    rw [hg] at h
    dsimp only at h
    cases hp : json_loads (pyStrip g) with
    | none => rw [hp] at h; exact absurd h (by simp)
    | some v =>
      rw [hp] at h
      cases v with
      | obj kvs =>
        dsimp only at h
        by_cases h1 : (isStrJ (sdTitleVal kvs) || isStrJ (sdDescVal kvs)) = true
        · rw [if_pos h1] at h
          by_cases h2 : sdText (sdTitleVal kvs) ≠ "" ∨ sdText (sdDescVal kvs) ≠ ""
          · rw [if_pos h2] at h
            have hr : r = ⟨sdText (sdTitleVal kvs), sdText (sdDescVal kvs)⟩ :=
              (Option.some.injEq _ _).mp h.symm
            subst hr
            obtain ⟨t, ht, htne⟩ := sdText_shape (sdTitleVal kvs)
            obtain ⟨d, hd, hdne⟩ := sdText_shape (sdDescVal kvs)
            refine ⟨h2, t, d, ht, hd, ?_⟩
            rcases h2 with h2 | h2
            · exact Or.inl (htne h2)
            · exact Or.inr (hdne h2)
          · rw [if_neg h2] at h; exact absurd h (by simp)
        · rw [if_neg h1] at h; exact absurd h (by simp)
      | null => exact absurd h (by simp)
      | bool b => exact absurd h (by simp)
      | num n => exact absurd h (by simp)
      | str s => exact absurd h (by simp)
      | arr xs => exact absurd h (by simp)

/-- A record accepted by the markup strategy has fields that are the
normalizations of source texts not both empty (the emptiness test of the
source happens before unescaping). -/
lemma markup_attempt_shape (a : List Char) (r : NewsRecord)
    (h : markup_attempt a = some r) :
    ∃ t d, r.title = unescape_text t ∧ r.description = unescape_text d ∧
      (t ≠ "" ∨ d ≠ "") := by
  unfold markup_attempt at h
  by_cases h1 : markup_title a ≠ "" ∨ markup_description a ≠ ""
  · rw [if_pos h1] at h
    have hr : r = ⟨unescape_text (markup_title a), unescape_text (markup_description a)⟩ :=
      (Option.some.injEq _ _).mp h.symm
    subst hr
    exact ⟨markup_title a, markup_description a, rfl, rfl, h1⟩
  · rw [if_neg h1] at h; exact absurd h (by simp)

/-- Every per-block record is built from source texts not both empty before
unescaping. -/
lemma extract_article_record_shape (a : List Char) (r : NewsRecord)
    (h : extract_article_record a = some r) :
    ∃ t d, r.title = unescape_text t ∧ r.description = unescape_text d ∧
      (t ≠ "" ∨ d ≠ "") := by
  unfold extract_article_record at h
  cases hs : structured_attempt a with
  | some r2 =>
    rw [hs] at h
    have : r2 = r := (Option.some.injEq _ _).mp h
    subst this
    exact (structured_attempt_shape a r2 hs).2
  | none =>
    rw [hs] at h
    exact markup_attempt_shape a r h

/-- Counterexample to C2 as stated: on an article whose heading is the
character reference `&#32;` (a space), the extraction appends a record whose
two fields are both empty after normalization — the emptiness test of the
markup strategy runs before entity unescaping. -/
theorem record_both_fields_empty_cx :
    ∃ r, r ∈ extract_records_from_html emptyRecHtml ∧
      r.title = "" ∧ r.description = "" := by
  refine ⟨⟨"", ""⟩, ?_, rfl, rfl⟩
  decide

/-- C2 (amended): every record in the output of `extract_records_from_html`
has its fields equal to the normalization (entity unescaping and trimming) of
source texts at least one of which is non-empty BEFORE unescaping; a record
accepted by the structured-data strategy moreover has a non-empty field after
normalization.  (As stated the claim fails: the markup strategy tests
emptiness before unescaping, see `record_both_fields_empty_cx`.) -/
theorem records_nonempty_before_unescape :
    (∀ (html : String) (r : NewsRecord), r ∈ extract_records_from_html html →
      ∃ t d, r.title = unescape_text t ∧ r.description = unescape_text d ∧
        (t ≠ "" ∨ d ≠ "")) ∧
    (∀ (a : List Char) (r : NewsRecord), structured_attempt a = some r →
      r.title ≠ "" ∨ r.description ≠ "") := by
  constructor
  · intro html r hr
    unfold extract_records_from_html at hr
    obtain ⟨a, _, ha⟩ := List.mem_filterMap.mp hr
    exact extract_article_record_shape a r ha
  · intro a r h
    exact (structured_attempt_shape a r h).1

/-- Witness for C2 (amended), at the counterexample input: the empty-fields
record is the normalization of the non-empty pre-unescape text `&#32;`. -/
theorem records_nonempty_before_unescape_witness :
    ∃ t d, (⟨"", ""⟩ : NewsRecord).title = unescape_text t ∧
      (⟨"", ""⟩ : NewsRecord).description = unescape_text d ∧ (t ≠ "" ∨ d ≠ "") :=
  records_nonempty_before_unescape.1 emptyRecHtml ⟨"", ""⟩ (by decide)

/-! ## Credential cookie -/

/-- C8: `build_cookie t` is `U=<t>; P=<q>` where `q` is the percent-encoding
of the constant payload `{"tags":["newsfeed"]}`; percent-decoding `q`
reconstructs exactly that payload; and for the token `abc123` the cookie
contains the literal substring `U=abc123;`. -/
theorem build_cookie_round_trip :
    (∀ token : String,
      build_cookie token = "U=" ++ token ++ "; P=" ++ pyQuote json_tags_payload) ∧
    pyQuote json_tags_payload = "%7B%22tags%22%3A%5B%22newsfeed%22%5D%7D" ∧
    pyUnquote "%7B%22tags%22%3A%5B%22newsfeed%22%5D%7D" = json_tags_payload ∧
    (∃ pre post : String, build_cookie "abc123" = pre ++ "U=abc123;" ++ post) :=
  ⟨fun _ => rfl, by decide, by decide,
   ⟨"", " P=%7B%22tags%22%3A%5B%22newsfeed%22%5D%7D", by decide⟩⟩

/-! ## Markup strategy scenarios -/

/-- C9: one article with `<h1>Fed holds rates</h1><p>No change expected.</p>`
and no structured-data block yields exactly that record; `h1` takes priority
over `h2`; an `h3` heading is used when no `h1`/`h2` exists, and embedded
tags are stripped, entities unescaped and whitespace trimmed. -/
theorem markup_scenario :
    extract_records_from_html scenarioHtml =
      [⟨"Fed holds rates", "No change expected."⟩] ∧
    extract_records_from_html priorityHtml = [⟨"First", "Para"⟩] ∧
    extract_records_from_html entitiesHtml = [⟨"Third", "A & B x"⟩] := by
  refine ⟨by decide, by decide, by decide⟩

/-! ## Structured-data precedence -/

/-- C5: when a block's structured-data script parses to a mapping that passes
the `isinstance` check and whose normalized fields are not both empty, the
block's record is exactly the structured-data one (whatever heading/paragraph
markup the block contains); the markup strategy decides the block's record
exactly when the structured-data strategy yields nothing (absent script,
unparseable body, non-mapping payload, failed check, or both fields empty). -/
theorem structured_data_precedence :
    (∀ (a g : List Char) (kvs : List (String × JVal)),
      searchLdJson a = some g →
      json_loads (pyStrip g) = some (JVal.obj kvs) →
      (isStrJ (sdTitleVal kvs) || isStrJ (sdDescVal kvs)) = true →
      (sdText (sdTitleVal kvs) ≠ "" ∨ sdText (sdDescVal kvs) ≠ "") →
      extract_article_record a =
        some ⟨sdText (sdTitleVal kvs), sdText (sdDescVal kvs)⟩) ∧
    (∀ a : List Char, structured_attempt a = none →
      extract_article_record a = markup_attempt a) := by
  constructor
  · intro a g kvs hg hp h1 h2
    have hs : structured_attempt a =
        some ⟨sdText (sdTitleVal kvs), sdText (sdDescVal kvs)⟩ := by
      unfold structured_attempt
      rw [hg]
      dsimp only
      rw [hp]
      dsimp only
      rw [if_pos h1, if_pos h2]
    unfold extract_article_record
    rw [hs]
  · intro a hs
    unfold extract_article_record
    rw [hs]

/-- Witness for C5: on an article with both a structured-data script and
distinct markup, the record is the structured-data one. -/
theorem structured_data_precedence_witness :
    extract_article_record sdArticle = some ⟨"SD Title", "SD Desc"⟩ := by
  have h := structured_data_precedence.1 sdArticle
    ("\x7b\"headline\":\"SD Title\",\"description\":\"SD Desc\"\x7d".data)
    [("headline", JVal.str "SD Title"), ("description", JVal.str "SD Desc")]
    (by decide) rfl (by decide) (by decide)
  exact h.trans (by decide)

/-! ## Cursor extraction -/

/-- The last element of a list is a member. -/
lemma mem_of_getLast_opt {α : Type} :
    ∀ (l : List α) (a : α), l.getLast? = some a → a ∈ l := by
  intro l
  induction l with
  | nil => intro a h; simp at h
  | cons b l ih =>
    intro a h
    cases l with
    | nil =>
      simp [List.getLast?] at h
      simp [h]
    | cons c l2 =>
      rw [List.getLast?_cons_cons] at h
      exact List.mem_cons_of_mem b (ih a h)

/-- The id captured by the article-id attribute scanner is non-empty (the
regex group is `[^"]+`). -/
lemma artIdScan_ne_nil :
    ∀ (s : List Char) (q rest : List Char),
      artIdScan s = some (q, rest) → q ≠ [] := by
  intro s
  induction s with
  | nil => intro q rest h; simp [artIdScan] at h
  | cons c cs ih =>
    intro q rest h
    unfold artIdScan at h
    split at h
    · exact absurd h (by simp)
    · split at h
      · rename_i r heq
        obtain ⟨rfl, rfl⟩ : r.1 = q ∧ r.2 = rest := by
          have := (Option.some.injEq _ _).mp h
          exact ⟨by rw [this], by rw [this]⟩
        exact ih r.1 r.2 (by rw [heq])
      · split at h
        · rename_i hcond
          dsimp only at h
          split at h
          · rename_i hq
            have hpair := (Option.some.injEq _ _).mp h
            have h1 : List.takeWhile (fun x => x != '"') (List.drop 4 cs) = q :=
              congrArg Prod.fst hpair
            have hne := (Bool.and_eq_true _ _ |>.mp hq).1
            rw [h1] at hne
            intro hnil
            rw [hnil] at hne
            simp at hne
          · exact absurd h (by simp)
        · exact absurd h (by simp)

/-- Every article id found by the id scanner is non-empty. -/
lemma findArticleIdsGo_ne_nil :
    ∀ (f : Nat) (s : List Char) (q : List Char),
      q ∈ findArticleIdsGo f s → q ≠ [] := by
  intro f
  induction f with
  | zero => intro s q h; simp [findArticleIdsGo] at h
  | succ f ih =>
    intro s q h
    cases s with
    | nil => simp [findArticleIdsGo] at h
    | cons c cs =>
      unfold findArticleIdsGo at h
      split at h
      · split at h
        · rename_i r heq
          rcases List.mem_cons.mp h with h1 | h2
          · subst h1
            exact artIdScan_ne_nil _ _ _ heq
          · exact ih _ q h2
        · exact ih _ q h
      · exact ih _ q h

/-- The id captured by the `data-post-id` scanner is non-empty. -/
lemma searchDataPostIdGo_ne_nil :
    ∀ (f : Nat) (s : List Char) (q : List Char),
      searchDataPostIdGo f s = some q → q ≠ [] := by
  intro f
  induction f with
  | zero => intro s q h; simp [searchDataPostIdGo] at h
  | succ f ih =>
    intro s q h
    cases s with
    | nil => simp [searchDataPostIdGo] at h
    | cons c cs =>
      unfold searchDataPostIdGo at h
      split at h
      · dsimp only at h
        split at h
        · rename_i hq
          have h1 := (Option.some.injEq _ _).mp h
          have hne := (Bool.and_eq_true _ _ |>.mp hq).1
          rw [h1] at hne
          intro hnil
          rw [hnil] at hne
          simp at hne
        · exact ih _ q h
      · exact ih _ q h

/-- The id captured by the `"postId"` JSON scanner is non-empty. -/
lemma searchPostIdJsonGo_ne_nil :
    ∀ (f : Nat) (s : List Char) (q : List Char),
      searchPostIdJsonGo f s = some q → q ≠ [] := by
  intro f
  induction f with
  | zero => intro s q h; simp [searchPostIdJsonGo] at h
  | succ f ih =>
    intro s q h
    cases s with
    | nil => simp [searchPostIdJsonGo] at h
    | cons c cs =>
      unfold searchPostIdJsonGo at h
      split at h
      · split at h
        · split at h
          · dsimp only at h
            split at h
            · rename_i hq
              have h1 := (Option.some.injEq _ _).mp h
              have hne := (Bool.and_eq_true _ _ |>.mp hq).1
              rw [h1] at hne
              intro hnil
              rw [hnil] at hne
              simp at hne
            · exact ih _ q h
          · exact ih _ q h
        · exact ih _ q h
      · exact ih _ q h

/-- A non-empty character list yields a non-empty string. -/
lemma asString_ne_empty (q : List Char) (h : q ≠ []) : q.asString ≠ "" := by
  intro hs
  exact h (congrArg String.data hs)

/-- C6: `extract_post_id_from_html` applies its strategies in priority order —
the id of the last article container, else the first `data-post-id` attribute,
else the first quoted `postId` JSON value — returning the first non-empty
match and `none` when nothing matches; on a document with both a last-article
id and a distinct `postId` value it returns the article id. -/
theorem cursor_precedence :
    extract_post_id_from_html cursorHtml = some "a2" ∧
    (∀ (html : String) (q : List Char),
      (findArticleIds html.data).getLast? = some q →
      extract_post_id_from_html html = some q.asString) ∧
    (∀ (html : String) (q : List Char),
      findArticleIds html.data = [] →
      searchDataPostIdGo html.data.length html.data = some q →
      extract_post_id_from_html html = some q.asString) ∧
    (∀ html : String,
      findArticleIds html.data = [] →
      searchDataPostIdGo html.data.length html.data = none →
      extract_post_id_from_html html =
        (searchPostIdJsonGo html.data.length html.data).map (fun q => q.asString)) ∧
    (∀ (html s : String), extract_post_id_from_html html = some s → s ≠ "") := by
  refine ⟨by decide, ?_, ?_, ?_, ?_⟩
  · intro html q h
    unfold extract_post_id_from_html
    rw [h]
  · intro html q h1 h2
    unfold extract_post_id_from_html
    rw [h1, h2]
    rfl
  · intro html h1 h2
    unfold extract_post_id_from_html
    rw [h1, h2]
    dsimp only
    cases searchPostIdJsonGo html.data.length html.data with
    | none => rfl
    | some q => rfl
  · intro html s h
    unfold extract_post_id_from_html at h
    split at h
    · rename_i q heq
      have hq : q ≠ [] :=
        findArticleIdsGo_ne_nil _ _ q (mem_of_getLast_opt _ q heq)
      have := (Option.some.injEq _ _).mp h
      rw [← this]
      exact asString_ne_empty q hq
    · split at h
      · rename_i q heq
        have hq : q ≠ [] := searchDataPostIdGo_ne_nil _ _ q heq
        have := (Option.some.injEq _ _).mp h
        rw [← this]
        exact asString_ne_empty q hq
      · split at h
        · rename_i q heq
          have hq : q ≠ [] := searchPostIdJsonGo_ne_nil _ _ q heq
          have := (Option.some.injEq _ _).mp h
          rw [← this]
          exact asString_ne_empty q hq
        · exact absurd h (by simp)

/-- Witness for C6: the general article-id clause applied to the concrete
document with two article ids, a `data-post-id` and a `postId` value. -/
theorem cursor_precedence_witness :
    extract_post_id_from_html cursorHtml = some ("a2".data).asString :=
  cursor_precedence.2.1 cursorHtml "a2".data (by decide)

/-! ## Pagination driver -/

/-- Printing no records emits nothing. -/
lemma print_records_nil : print_records [] = [] := rfl

/-- The source's `if records: print_records(records)` emits exactly
`print_records records`. -/
lemma emitted_eq (recs : List NewsRecord) :
    (if recs.isEmpty then ([] : List Ev) else print_records recs) = print_records recs := by
  by_cases hr : recs.isEmpty = true
  · rw [if_pos hr, List.isEmpty_iff.mp hr, print_records_nil]
  · rw [if_neg hr]

/-- Whatever happens after the initial (or fallback) page, the trace starts
with the events so far followed by the emission of that page's records. -/
lemma runTail_shape (ck : String) (render : Nat → Except String String)
    (ci : Nat) (hdoc : String) (recs : List NewsRecord) (evs0 : List Ev) (pages : Int) :
    ∃ rest code, runTail ck render ci hdoc recs evs0 pages =
      (evs0 ++ (print_records recs ++ rest), code) := by
  unfold runTail
  dsimp only
  rw [emitted_eq]
  by_cases hp : pages ≤ 1
  · rw [if_pos hp]
    exact ⟨[], 0, by rw [List.append_nil]⟩
  · rw [if_neg hp]
    by_cases ht : strTruthy (extract_post_id_from_html hdoc) = true
    · rw [if_pos ht]
      exact ⟨(pagLoop ck render (pages - 1).toNat ci 2 (extract_post_id_from_html hdoc)).1,
        (pagLoop ck render (pages - 1).toNat ci 2 (extract_post_id_from_html hdoc)).2,
        by rw [List.append_assoc]⟩
    · rw [if_neg ht]
      exact ⟨[Ev.err "Warning: could not find a post id for pagination."], 0,
        by rw [List.append_assoc]⟩

/-- C3: the driver enters its fallback exactly when the initial page yields
zero records — it then fetches one fragment page with the cursor extracted
from that same page and re-extracts records from the response; when the
initial page yields records, no fallback fetch happens (with a single page
requested, the whole trace is the initial fetch plus the emission); when the
primary fetch fails, the run fails immediately with no fallback fetch. -/
theorem fallback_trigger :
    ∀ (render : Nat → Except String String) (t : String) (pages : Int), t ≠ "" →
      (∀ e, run (Except.error e) render (some t) pages =
        ([Ev.fetchNews (build_cookie t),
          Ev.err ("Failed to load newsfeed: " ++ e)], 1)) ∧
      (∀ h0 e, dedupe_records (find_article_records h0) = [] →
        render 0 = Except.error e →
        run (Except.ok h0) render (some t) pages =
          ([Ev.fetchNews (build_cookie t),
            Ev.fetchRender (build_cookie t) (extract_post_id_from_html h0),
            Ev.err ("Failed to load fallback page: " ++ e)], 1)) ∧
      (∀ h0 h1, dedupe_records (find_article_records h0) = [] →
        render 0 = Except.ok h1 →
        ∃ rest code, run (Except.ok h0) render (some t) pages =
          (Ev.fetchNews (build_cookie t) ::
           Ev.fetchRender (build_cookie t) (extract_post_id_from_html h0) ::
           (print_records (dedupe_records (find_article_records h1)) ++ rest), code)) ∧
      (∀ h0, dedupe_records (find_article_records h0) ≠ [] → pages ≤ 1 →
        run (Except.ok h0) render (some t) pages =
          (Ev.fetchNews (build_cookie t) ::
           print_records (dedupe_records (find_article_records h0)), 0)) := by
  intro render t pages ht
  refine ⟨?_, ?_, ?_, ?_⟩
  · intro e
    unfold run
    dsimp only
    rw [if_neg ht]
  · intro h0 e hrec hrd
    unfold run
    dsimp only
    rw [if_neg ht, hrec,
      if_pos (show ([] : List NewsRecord).isEmpty = true from rfl)]
    rw [hrd]
  · intro h0 h1 hrec hrd
    unfold run
    dsimp only
    rw [if_neg ht, hrec,
      if_pos (show ([] : List NewsRecord).isEmpty = true from rfl)]
    rw [hrd]
    dsimp only
    obtain ⟨rest, code, hshape⟩ := runTail_shape (build_cookie t) render 1 h1
      (dedupe_records (find_article_records h1))
      [Ev.fetchNews (build_cookie t),
       Ev.fetchRender (build_cookie t) (extract_post_id_from_html h0)] pages
    exact ⟨rest, code, hshape⟩
  · intro h0 hrec hp
    unfold run
    dsimp only
    rw [if_neg ht]
    have hne : ¬((dedupe_records (find_article_records h0)).isEmpty = true) := by
      intro hh
      exact hrec (List.isEmpty_iff.mp hh)
    rw [if_neg hne]
    unfold runTail
    dsimp only
    rw [emitted_eq, if_pos hp]
    rfl

/-- Witness for C3: a failing primary fetch reports immediately with no
fallback fetch. -/
theorem fallback_trigger_witness :
    run (Except.error "boom") (fun _ => Except.ok "") (some "tok") 1 =
      ([Ev.fetchNews (build_cookie "tok"),
        Ev.err ("Failed to load newsfeed: " ++ "boom")], 1) :=
  (fallback_trigger (fun _ => Except.ok "") "tok" 1 (by decide)).1 "boom"

/-- The pagination loop served `goods` (each a `goodPage`, in order, starting
at the current call index) followed by a record-less page runs to completion:
it fetches and emits each good page, fetches the record-less page, and stops
with status 0. -/
lemma pagLoop_spec :
    ∀ (goods : List String) (ck : String) (render : Nat → Except String String)
      (bad : String) (fuel callIdx : Nat) (page : Int) (pid : Option String),
      (∀ i (hi : i < goods.length), render (callIdx + i) = Except.ok (goods.get ⟨i, hi⟩)) →
      render (callIdx + goods.length) = Except.ok bad →
      dedupe_records (find_article_records bad) = [] →
      (∀ g ∈ goods, goodPage g) →
      strTruthy pid = true →
      goods.length + 1 ≤ fuel →
      pagLoop ck render fuel callIdx page pid = (expectedLoop ck pid goods, 0) := by
  intro goods
  induction goods with
  | nil =>
    intro ck render bad fuel callIdx page pid hr hrb hbad hg hpid hfuel
    cases fuel with
    | zero => omega
    | succ f =>
      unfold pagLoop
      rw [if_pos hpid]
      rw [show render callIdx = Except.ok bad from hrb]
      dsimp only
      rw [hbad]
      rw [if_pos (show ([] : List NewsRecord).isEmpty = true from rfl)]
      rfl
  | cons g gs ih =>
    intro ck render bad fuel callIdx page pid hr hrb hbad hg hpid hfuel
    cases fuel with
    | zero => simp at hfuel
    | succ f =>
      unfold pagLoop
      rw [if_pos hpid]
      rw [show render callIdx = Except.ok g from hr 0 (by simp)]
      dsimp only
      have hgood : goodPage g := hg g (List.mem_cons_self _ _)
      have hne : ¬((dedupe_records (find_article_records g)).isEmpty = true) := by
        intro hh
        exact hgood.1 (List.isEmpty_iff.mp hh)
      rw [if_neg hne]
      have hrec := ih ck render bad f (callIdx + 1) (page + 1)
        (extract_post_id_from_html g)
        (by
          intro i hi
          have h2 : callIdx + 1 + i = callIdx + (i + 1) := by omega
          rw [h2]
          exact hr (i + 1) (by simpa using Nat.succ_lt_succ hi))
        (by
          have h2 : callIdx + 1 + gs.length = callIdx + (gs.length + 1) := by omega
          rw [h2]
          exact hrb)
        hbad
        (fun x hx => hg x (List.mem_cons_of_mem _ hx))
        hgood.2
        (by simpa using Nat.succ_le_succ_iff.mp hfuel)
      rw [hrec]
      rfl

/-- C4: when the initial page yields records and a cursor, the fragment pages
for pages 2..N-1 yield records and cursors, and the page-N fragment yields
zero records, then for every requested page count greater than N the driver
emits the records of pages 1..N-1 (each page's emission directly after its
fetch), fetches page N, stops there with no further fetches, and exits with
status 0. -/
theorem pagination_termination :
    ∀ (t : String) (render : Nat → Except String String) (pages : Int)
      (h0 bad : String) (goods : List String),
      t ≠ "" →
      dedupe_records (find_article_records h0) ≠ [] →
      strTruthy (extract_post_id_from_html h0) = true →
      (∀ g ∈ goods, goodPage g) →
      (∀ i (hi : i < goods.length), render i = Except.ok (goods.get ⟨i, hi⟩)) →
      render goods.length = Except.ok bad →
      dedupe_records (find_article_records bad) = [] →
      ((goods.length : Int) + 2) < pages →
      run (Except.ok h0) render (some t) pages =
        (Ev.fetchNews (build_cookie t) ::
         (print_records (dedupe_records (find_article_records h0)) ++
          expectedLoop (build_cookie t) (extract_post_id_from_html h0) goods), 0) := by
  intro t render pages h0 bad goods ht hrec0 hpid0 hgoods hrender hrbad hbad hpages
  unfold run
  dsimp only
  rw [if_neg ht]
  have hne : ¬((dedupe_records (find_article_records h0)).isEmpty = true) := by
    intro hh
    exact hrec0 (List.isEmpty_iff.mp hh)
  rw [if_neg hne]
  unfold runTail
  dsimp only
  rw [emitted_eq]
  rw [if_neg (show ¬(pages ≤ 1) from by omega)]
  rw [if_pos hpid0]
  have hloop := pagLoop_spec goods (build_cookie t) render bad (pages - 1).toNat 0 2
    (extract_post_id_from_html h0)
    (by intro i hi; simpa using hrender i hi)
    (by simpa using hrbad)
    hbad hgoods hpid0
    (by omega)
  rw [hloop]
  rfl

/-- Witness for C4: initial page with records and cursor, one good fragment
page, then an empty page, with four pages requested (N = 3 < 4). -/
theorem pagination_termination_witness :
    run (Except.ok initialPage) renderW (some "tok") 4 =
      (Ev.fetchNews (build_cookie "tok") ::
       (print_records (dedupe_records (find_article_records initialPage)) ++
        expectedLoop (build_cookie "tok") (extract_post_id_from_html initialPage)
          [goodFragment]), 0) :=
  pagination_termination "tok" renderW 4 initialPage "" [goodFragment]
    (by decide) (by decide) (by decide)
    (by
      intro g hg
      rw [List.mem_singleton.mp hg]
      constructor
      · decide
      · decide)
    (by
      intro i hi
      have h0 : i = 0 := by simpa using hi
      subst h0
      rfl)
    rfl (by decide) (by decide)

/-- The pagination loop exits 0, or exits 1 with the failure message as the
last event of its trace and a failing fragment response. -/
lemma pagLoop_exit :
    ∀ (fuel : Nat) (ck : String) (render : Nat → Except String String)
      (callIdx : Nat) (page : Int) (pid : Option String),
      (pagLoop ck render fuel callIdx page pid).2 = 0 ∨
      ((pagLoop ck render fuel callIdx page pid).2 = 1 ∧
       (∃ pre msg, (pagLoop ck render fuel callIdx page pid).1 = pre ++ [Ev.err msg]) ∧
       ∃ k e, render k = Except.error e) := by
  intro fuel
  induction fuel with
  | zero => intros; left; rfl
  | succ f ih =>
    intro ck render callIdx page pid
    unfold pagLoop
    by_cases hpid : strTruthy pid = true
    · rw [if_pos hpid]
      cases hr : render callIdx with
      | error e =>
        right
        exact ⟨rfl, ⟨[Ev.fetchRender ck pid],
          "Failed to load page " ++ toString page ++ ": " ++ e, rfl⟩, callIdx, e, hr⟩
      | ok htext =>
        dsimp only
        by_cases hempty : (dedupe_records (find_article_records htext)).isEmpty = true
        · rw [if_pos hempty]
          left
          rfl
        · rw [if_neg hempty]
          rcases ih ck render (callIdx + 1) (page + 1) (extract_post_id_from_html htext) with
            h0 | ⟨h1, ⟨pre, msg, hpre⟩, k, e, hk⟩
          · left
            exact h0
          · right
            refine ⟨h1, ⟨Ev.fetchRender ck pid ::
              (print_records (dedupe_records (find_article_records htext)) ++ pre),
              msg, ?_⟩, k, e, hk⟩
            show Ev.fetchRender ck pid ::
              (print_records (dedupe_records (find_article_records htext)) ++
               (pagLoop ck render f (callIdx + 1) (page + 1)
                 (extract_post_id_from_html htext)).1) = _
            rw [hpre]
            simp
    · rw [if_neg hpid]
      left
      rfl

/-- The driver tail exits 0, or exits 1 with the failure message last and a
failing fragment response. -/
lemma runTail_exit :
    ∀ (ck : String) (render : Nat → Except String String) (ci : Nat)
      (hdoc : String) (recs : List NewsRecord) (evs0 : List Ev) (pages : Int),
      (runTail ck render ci hdoc recs evs0 pages).2 = 0 ∨
      ((runTail ck render ci hdoc recs evs0 pages).2 = 1 ∧
       (∃ pre msg, (runTail ck render ci hdoc recs evs0 pages).1 = pre ++ [Ev.err msg]) ∧
       ∃ k e, render k = Except.error e) := by
  intro ck render ci hdoc recs evs0 pages
  unfold runTail
  dsimp only
  by_cases hp : pages ≤ 1
  · rw [if_pos hp]
    left
    rfl
  · rw [if_neg hp]
    by_cases hpid : strTruthy (extract_post_id_from_html hdoc) = true
    · rw [if_pos hpid]
      rcases pagLoop_exit (pages - 1).toNat ck render ci 2 (extract_post_id_from_html hdoc) with
        h0 | ⟨h1, ⟨pre, msg, hpre⟩, k, e, hk⟩
      · left
        exact h0
      · right
        refine ⟨h1, ⟨(evs0 ++ (if recs.isEmpty then [] else print_records recs)) ++ pre,
          msg, ?_⟩, k, e, hk⟩
        show (evs0 ++ (if recs.isEmpty then [] else print_records recs)) ++
          (pagLoop ck render (pages - 1).toNat ci 2 (extract_post_id_from_html hdoc)).1 = _
        rw [hpre]
        exact (List.append_assoc _ _ _).symm
    · rw [if_neg hpid]
      left
      rfl

/-- Every run exits 0, exits 1 with the failure message as the final event and
a failing fetch response, or exits 2 with a falsy credential. -/
lemma run_exit :
    ∀ (news : Except String String) (render : Nat → Except String String)
      (token : Option String) (pages : Int),
      (run news render token pages).2 = 0 ∨
      ((run news render token pages).2 = 1 ∧
       (∃ pre msg, (run news render token pages).1 = pre ++ [Ev.err msg]) ∧
       ((∃ e, news = Except.error e) ∨ ∃ k e, render k = Except.error e)) ∨
      ((run news render token pages).2 = 2 ∧ strTruthy token = false) := by
  intro news render token pages
  cases token with
  | none => right; right; exact ⟨rfl, rfl⟩
  | some t =>
    by_cases ht : t = ""
    · subst ht
      right; right
      constructor
      · unfold run
        dsimp only
        rw [if_pos rfl]
      · rfl
    · unfold run
      dsimp only
      rw [if_neg ht]
      cases news with
      | error e =>
        right; left
        exact ⟨rfl, ⟨[Ev.fetchNews (build_cookie t)],
          "Failed to load newsfeed: " ++ e, rfl⟩, Or.inl ⟨e, rfl⟩⟩
      | ok h0 =>
        dsimp only
        by_cases hrec : (dedupe_records (find_article_records h0)).isEmpty = true
        · rw [if_pos hrec]
          cases hr0 : render 0 with
          | error e =>
            right; left
            exact ⟨rfl, ⟨[Ev.fetchNews (build_cookie t),
              Ev.fetchRender (build_cookie t) (extract_post_id_from_html h0)],
              "Failed to load fallback page: " ++ e, rfl⟩, Or.inr ⟨0, e, hr0⟩⟩
          | ok h1 =>
            rcases runTail_exit (build_cookie t) render 1 h1
              (dedupe_records (find_article_records h1))
              [Ev.fetchNews (build_cookie t),
               Ev.fetchRender (build_cookie t) (extract_post_id_from_html h0)] pages with
              hz | ⟨h1x, hpre, hrend⟩
            · left; exact hz
            · right; left; exact ⟨h1x, hpre, Or.inr hrend⟩
        · rw [if_neg hrec]
          rcases runTail_exit (build_cookie t) render 0 h0
            (dedupe_records (find_article_records h0))
            [Ev.fetchNews (build_cookie t)] pages with
            hz | ⟨h1x, hpre, hrend⟩
          · left; exact hz
          · right; left; exact ⟨h1x, hpre, Or.inr hrend⟩

/-- The pagination loop served `goods` (each a `goodPage`, in order, starting
at the current call index) and then a failing fragment response fetches and
emits each good page, makes the failing fetch, reports it, and exits 1. -/
lemma pagLoop_fail :
    ∀ (goods : List String) (ck : String) (render : Nat → Except String String)
      (e : String) (fuel callIdx : Nat) (page : Int) (pid : Option String),
      (∀ i (hi : i < goods.length), render (callIdx + i) = Except.ok (goods.get ⟨i, hi⟩)) →
      render (callIdx + goods.length) = Except.error e →
      (∀ g ∈ goods, goodPage g) →
      strTruthy pid = true →
      goods.length + 1 ≤ fuel →
      pagLoop ck render fuel callIdx page pid =
        (expectedLoopFail ck e goods pid page, 1) := by
  intro goods
  induction goods with
  | nil =>
    intro ck render e fuel callIdx page pid hr hre hg hpid hfuel
    cases fuel with
    | zero => omega
    | succ f =>
      unfold pagLoop
      rw [if_pos hpid]
      rw [show render callIdx = Except.error e from hre]
      rfl
  | cons g gs ih =>
    intro ck render e fuel callIdx page pid hr hre hg hpid hfuel
    cases fuel with
    | zero => simp at hfuel
    | succ f =>
      unfold pagLoop
      rw [if_pos hpid]
      rw [show render callIdx = Except.ok g from hr 0 (by simp)]
      dsimp only
      have hgood : goodPage g := hg g (List.mem_cons_self _ _)
      have hne : ¬((dedupe_records (find_article_records g)).isEmpty = true) := by
        intro hh
        exact hgood.1 (List.isEmpty_iff.mp hh)
      rw [if_neg hne]
      have hrec := ih ck render e f (callIdx + 1) (page + 1)
        (extract_post_id_from_html g)
        (by
          intro i hi
          have h2 : callIdx + 1 + i = callIdx + (i + 1) := by omega
          rw [h2]
          exact hr (i + 1) (by simpa using Nat.succ_lt_succ hi))
        (by
          have h2 : callIdx + 1 + gs.length = callIdx + (gs.length + 1) := by omega
          rw [h2]
          exact hre)
        (fun x hx => hg x (List.mem_cons_of_mem _ hx))
        hgood.2
        (by simpa using Nat.succ_le_succ_iff.mp hfuel)
      rw [hrec]
      rfl

/-- C7: the exit status is 2 exactly when the credential is missing or empty
(reported with no fetch event); with the credential set, a failing initial
fetch, a failing fallback fetch, and a failing pagination fetch at any depth
each end the run with status 1, with every record extracted from earlier
pages emitted before the failure is reported; an exit of 1 conversely implies
some performed fetch failed, with the failure message as the last event of
the trace; every other run exits 0 or 1, and a run whose pagination stops
because a page has no cursor exits 0 with a warning. -/
theorem exit_status_spec :
    ∀ (news : Except String String) (render : Nat → Except String String)
      (token : Option String) (pages : Int),
      (strTruthy token = false →
        run news render token pages = ([Ev.err "TME_TOKEN is not set."], 2)) ∧
      (strTruthy token = true →
        (run news render token pages).2 = 0 ∨ (run news render token pages).2 = 1) ∧
      ((run news render token pages).2 = 1 →
        (∃ pre msg, (run news render token pages).1 = pre ++ [Ev.err msg]) ∧
        ((∃ e, news = Except.error e) ∨ ∃ k e, render k = Except.error e)) ∧
      (∀ (t h0 : String), token = some t → t ≠ "" → news = Except.ok h0 →
        dedupe_records (find_article_records h0) ≠ [] → 1 < pages →
        strTruthy (extract_post_id_from_html h0) = false →
        run news render token pages =
          ((Ev.fetchNews (build_cookie t) ::
            print_records (dedupe_records (find_article_records h0))) ++
           [Ev.err "Warning: could not find a post id for pagination."], 0)) ∧
      (∀ (t e : String), token = some t → t ≠ "" → news = Except.error e →
        run news render token pages =
          ([Ev.fetchNews (build_cookie t),
            Ev.err ("Failed to load newsfeed: " ++ e)], 1)) ∧
      (∀ (t h0 e : String), token = some t → t ≠ "" → news = Except.ok h0 →
        dedupe_records (find_article_records h0) = [] →
        render 0 = Except.error e →
        run news render token pages =
          ([Ev.fetchNews (build_cookie t),
            Ev.fetchRender (build_cookie t) (extract_post_id_from_html h0),
            Ev.err ("Failed to load fallback page: " ++ e)], 1)) ∧
      (∀ (t h0 e : String) (goods : List String),
        token = some t → t ≠ "" → news = Except.ok h0 →
        dedupe_records (find_article_records h0) ≠ [] →
        strTruthy (extract_post_id_from_html h0) = true →
        (∀ g ∈ goods, goodPage g) →
        (∀ i (hi : i < goods.length), render i = Except.ok (goods.get ⟨i, hi⟩)) →
        render goods.length = Except.error e →
        ((goods.length : Int) + 2) ≤ pages →
        run news render token pages =
          ((Ev.fetchNews (build_cookie t) ::
            print_records (dedupe_records (find_article_records h0))) ++
           expectedLoopFail (build_cookie t) e goods
             (extract_post_id_from_html h0) 2, 1)) := by
  intro news render token pages
  refine ⟨?_, ?_, ?_, ?_, ?_, ?_, ?_⟩
  · intro hf
    cases token with
    | none => rfl
    | some t =>
      have ht : t = "" := by simpa [strTruthy] using hf
      subst ht
      unfold run
      dsimp only
      rw [if_pos rfl]
  · intro htrue
    rcases run_exit news render token pages with h | ⟨h1, _, _⟩ | ⟨_, hf⟩
    · left; exact h
    · right; exact h1
    · rw [htrue] at hf
      exact absurd hf (by simp)
  · intro h1
    rcases run_exit news render token pages with h | ⟨_, hpre, hsrc⟩ | ⟨h2, _⟩
    · rw [h] at h1; exact absurd h1 (by simp)
    · exact ⟨hpre, hsrc⟩
    · rw [h2] at h1; exact absurd h1 (by simp)
  · intro t h0 htok ht hnews hrec hp hpid
    subst htok
    subst hnews
    unfold run
    dsimp only
    rw [if_neg ht]
    have hne : ¬((dedupe_records (find_article_records h0)).isEmpty = true) := by
      intro hh
      exact hrec (List.isEmpty_iff.mp hh)
    rw [if_neg hne]
    unfold runTail
    dsimp only
    rw [emitted_eq]
    rw [if_neg (show ¬(pages ≤ 1) from by omega)]
    rw [if_neg (show ¬(strTruthy (extract_post_id_from_html h0) = true) from by
      rw [hpid]; simp)]
    rfl
  · intro t e htok ht hnews
    subst htok
    subst hnews
    unfold run
    dsimp only
    rw [if_neg ht]
  · intro t h0 e htok ht hnews hrec hrd
    subst htok
    subst hnews
    unfold run
    dsimp only
    rw [if_neg ht, hrec,
      if_pos (show ([] : List NewsRecord).isEmpty = true from rfl)]
    rw [hrd]
  · intro t h0 e goods htok ht hnews hrec0 hpid0 hgoods hrender hre hpages
    subst htok
    subst hnews
    unfold run
    dsimp only
    rw [if_neg ht]
    have hne : ¬((dedupe_records (find_article_records h0)).isEmpty = true) := by
      intro hh
      exact hrec0 (List.isEmpty_iff.mp hh)
    rw [if_neg hne]
    unfold runTail
    dsimp only
    rw [emitted_eq]
    rw [if_neg (show ¬(pages ≤ 1) from by omega)]
    rw [if_pos hpid0]
    have hloop := pagLoop_fail goods (build_cookie t) render e (pages - 1).toNat 0 2
      (extract_post_id_from_html h0)
      (by intro i hi; simpa using hrender i hi)
      (by simpa using hre)
      hgoods hpid0
      (by omega)
    rw [hloop]
    rfl

/-- Witness for C7: a run whose initial page has records but no cursor warns
and exits 0 (partial success), and a run whose first pagination fetch fails
emits the initial records, then the failure message, and exits 1. -/
theorem exit_status_spec_witness :
    run (Except.ok noCursorPage) (fun _ => Except.ok "") (some "tok") 3 =
      ((Ev.fetchNews (build_cookie "tok") ::
        print_records (dedupe_records (find_article_records noCursorPage))) ++
       [Ev.err "Warning: could not find a post id for pagination."], 0) ∧
    run (Except.ok initialPage) renderFailW (some "tok") 3 =
      ((Ev.fetchNews (build_cookie "tok") ::
        print_records (dedupe_records (find_article_records initialPage))) ++
       expectedLoopFail (build_cookie "tok") "net" []
         (extract_post_id_from_html initialPage) 2, 1) :=
  ⟨(exit_status_spec (Except.ok noCursorPage) (fun _ => Except.ok "") (some "tok") 3).2.2.2.1
    "tok" noCursorPage rfl (by decide) rfl (by decide) (by decide) (by decide),
   (exit_status_spec (Except.ok initialPage) renderFailW (some "tok") 3).2.2.2.2.2.2
    "tok" initialPage "net" [] rfl (by decide) rfl (by decide) (by decide)
    (by intro g hg; simp at hg)
    (by intro i hi; exact absurd hi (Nat.not_lt_zero i))
    rfl (by decide)⟩

/-- C10: an empty credential environment variable behaves exactly like a
missing one — the run reports the configuration error and exits 2 with no
fetch event (the source tests truthiness, not presence). -/
theorem empty_token_like_missing :
    ∀ (news : Except String String) (render : Nat → Except String String) (pages : Int),
      run news render (some "") pages = run news render none pages ∧
      run news render none pages = ([Ev.err "TME_TOKEN is not set."], 2) := by
  intro news render pages
  constructor
  · unfold run
    dsimp only
    rw [if_pos rfl]
  · rfl
